import Mathlib

/-
  Verification development for the `GetiSession` HTTP session layer of the
  geti-sdk repository (`src/geti_sdk/http_session/geti_session.py`).

  Python code is shallowly embedded as executable Lean definitions: the
  mutable session state becomes explicit records, network effects become
  oracle parameters describing the responses the server would give, and
  raised exceptions become explicit outcome constructors.
-/

namespace Geti

/-- Cookie name constant `CSRF_COOKIE_NAME` from `geti_session.py`. -/
def CSRF_COOKIE_NAME : String := "_oauth2_proxy_csrf"

/-- Cookie name constant `PROXY_COOKIE_NAME` from `geti_session.py`. -/
def PROXY_COOKIE_NAME : String := "_oauth2_proxy"

/-- Cookie name constant `GETI_COOKIE_NAME` from `geti_session.py`. -/
def GETI_COOKIE_NAME : String := "geti-cookie"

/-- The headers installed by `GetiSession.__init__` (`INITIAL_HEADERS`). -/
def INITIAL_HEADERS : List (String × String) := [("Upgrade-Insecure-Requests", "1")]

/-- Status codes regarded as success by the session (`SUCCESS_STATUS_CODES`). -/
def SUCCESS_STATUS_CODES : List Nat := [200, 201, 202]

/-- Authentication service tag `AUTHENTICATION_DEX_OLD` (the legacy redirect-login backend). -/
def AUTHENTICATION_DEX_OLD : String := "dex-old"

/-- Authentication service tag `AUTHENTICATION_DEX_NEW` (the modern redirect-login backend). -/
def AUTHENTICATION_DEX_NEW : String := "dex-new"

/-- Authentication service tag `AUTHENTICATION_CIDAAS` (the token-service backend). -/
def AUTHENTICATION_CIDAAS : String := "cidaas"

/-- The CSRF protection header name attached by `get_rest_response`. -/
def CSRF_HEADER_NAME : String := "x-geti-csrf-protection"

/-- The list `csrf_header_methods` from `get_rest_response`. -/
def CSRF_HEADER_METHODS : List String := ["POST", "PUT", "DELETE", "PATCH"]

/-- Python `dict` lookup on an association list. -/
def lookupAssoc {α : Type} : List (String × α) → String → Option α
  | [], _ => none
  | (key, value) :: rest, wanted =>
    if key = wanted then some value else lookupAssoc rest wanted

/-- Remove a key from an association list (Python `dict.pop(key, default)`). -/
def removeKey {α : Type} : List (String × α) → String → List (String × α)
  | [], _ => []
  | (key, value) :: rest, wanted =>
    if key = wanted then removeKey rest wanted else (key, value) :: removeKey rest wanted

/-- Set a key in an association list (Python `dict.update` with one key). -/
def setKey {α : Type} (m : List (String × α)) (key : String) (value : α) :
    List (String × α) :=
  (key, value) :: removeKey m key

theorem lookupAssoc_setKey_self {α : Type} (m : List (String × α)) (k : String) (v : α) :
    lookupAssoc (setKey m k v) k = some v := by
  simp [setKey, lookupAssoc]

theorem lookupAssoc_removeKey_self {α : Type} (m : List (String × α)) (k : String) :
    lookupAssoc (removeKey m k) k = none := by
  induction m with
  | nil => simp [removeKey, lookupAssoc]
  | cons head rest ih =>
    obtain ⟨key, value⟩ := head
    by_cases h : key = k
    · simpa [removeKey, h] using ih
    · simp [removeKey, h, lookupAssoc, ih]

theorem lookupAssoc_removeKey_ne {α : Type} (m : List (String × α)) (k w : String)
    (h : k ≠ w) : lookupAssoc (removeKey m k) w = lookupAssoc m w := by
  induction m with
  | nil => rfl
  | cons head rest ih =>
    obtain ⟨key, value⟩ := head
    by_cases hk : key = k
    · subst hk
      simp [removeKey, lookupAssoc, h, ih]
    · simp [removeKey, lookupAssoc, hk, ih]

theorem lookupAssoc_setKey_ne {α : Type} (m : List (String × α)) (k w : String) (v : α)
    (h : k ≠ w) : lookupAssoc (setKey m k v) w = lookupAssoc m w := by
  simp [setKey, lookupAssoc, h, lookupAssoc_removeKey_ne m k w h]

/-- Minimal JSON value model, just rich enough for the documents the session parses. -/
inductive Json where
  | str (s : String)
  | num (n : Int)
  | obj (fields : List (String × Json))
  | nullVal

/-- Field access on a JSON object (Python `dict.get(key)` on a parsed document). -/
def Json.getField : Json → String → Option Json
  | Json.obj fields, key => lookupAssoc fields key
  | _, _ => none

/-- The check `authentication_info.get("type") == "dex"` from `authentication_service`. -/
def jsonTypeIsDex (info : Json) : Bool :=
  match Json.getField info "type" with
  | some (Json.str t) => t = "dex"
  | _ => false

/-- Result of the `authentication_service` property: the resolved service tag, the
new value of the `_auth_service` cache, and whether the deployment descriptor was
fetched over the network on this evaluation. -/
structure AuthServiceResult where
  service : String
  cache : Option String
  fetched : Bool
deriving DecidableEq

/-- The `authentication_service` property of `GetiSession`.

`cached` is the `_auth_service` attribute; `resp` is the body of
`GET deployment-config.json`, with `none` standing for a document whose
`.json()` parse raises `JSONDecodeError`. -/
def authenticationService (cached : Option String) (resp : Option Json) :
    AuthServiceResult :=
  match cached with
  | some service => ⟨service, some service, false⟩
  | none =>
    match resp with
    | none => ⟨AUTHENTICATION_DEX_OLD, some AUTHENTICATION_DEX_OLD, true⟩
    | some doc =>
      let authenticationInfo :=
        (Json.getField doc "auth").getD (Json.obj [("type", Json.str "dex")])
      if jsonTypeIsDex authenticationInfo then
        ⟨AUTHENTICATION_DEX_NEW, some AUTHENTICATION_DEX_NEW, true⟩
      else
        ⟨AUTHENTICATION_CIDAAS, some AUTHENTICATION_CIDAAS, true⟩

/-- C3 counterexample: a parseable deployment descriptor with the auth section
absent (here the empty object) resolves to the modern backend `dex-new`, not the
legacy backend `dex-old` that the claim requires. -/
theorem c3_absent_auth_is_modern_counterexample :
    (authenticationService none (some (Json.obj []))).service = AUTHENTICATION_DEX_NEW ∧
    AUTHENTICATION_DEX_NEW ≠ AUTHENTICATION_DEX_OLD := by
  constructor
  · rfl
  · decide

/-- C3 (amended): the auth backend negotiator resolves an unparsable document to the
legacy backend; a parseable document with the auth section absent, or declaring type
"dex", to the modern backend; a parseable document whose auth section declares any
other type (or no string type) to the token-service backend; and a cached result is
returned as-is without fetching and without changing the cache. -/
theorem c3_auth_backend_resolution (doc : Json) (resp : Option Json) (cached : String) :
    (authenticationService none none =
      ⟨AUTHENTICATION_DEX_OLD, some AUTHENTICATION_DEX_OLD, true⟩) ∧
    (Json.getField doc "auth" = none →
      authenticationService none (some doc) =
        ⟨AUTHENTICATION_DEX_NEW, some AUTHENTICATION_DEX_NEW, true⟩) ∧
    (∀ info, Json.getField doc "auth" = some info →
      (jsonTypeIsDex info = true →
        authenticationService none (some doc) =
          ⟨AUTHENTICATION_DEX_NEW, some AUTHENTICATION_DEX_NEW, true⟩) ∧
      (jsonTypeIsDex info = false →
        authenticationService none (some doc) =
          ⟨AUTHENTICATION_CIDAAS, some AUTHENTICATION_CIDAAS, true⟩)) ∧
    (authenticationService (some cached) resp = ⟨cached, some cached, false⟩) := by
  refine ⟨rfl, ?_, ?_, rfl⟩
  · intro h
    simp only [authenticationService]
    rw [h]
    rfl
  · intro info hinfo
    constructor
    · intro hdex
      simp only [authenticationService]
      rw [hinfo]
      simp [hdex]
    · intro hnodex
      simp only [authenticationService]
      rw [hinfo]
      simp [hnodex]

/-- C3 witness: the amended resolution evaluated on a concrete document that
declares the token-service type "cidaas". -/
theorem c3_auth_backend_resolution_witness :
    Json.getField (Json.obj [("auth", Json.obj [("type", Json.str "cidaas")])]) "auth" =
      some (Json.obj [("type", Json.str "cidaas")]) ∧
    jsonTypeIsDex (Json.obj [("type", Json.str "cidaas")]) = false ∧
    authenticationService none (some (Json.obj [("auth", Json.obj [("type", Json.str "cidaas")])])) =
      ⟨AUTHENTICATION_CIDAAS, some AUTHENTICATION_CIDAAS, true⟩ := by
  refine ⟨rfl, rfl, ?_⟩
  exact (((c3_auth_backend_resolution
    (Json.obj [("auth", Json.obj [("type", Json.str "cidaas")])]) none "x").2.2.1
    (Json.obj [("type", Json.str "cidaas")]) rfl).2 rfl)

/-- The `_update_headers_for_content_type` method of `GetiSession`. -/
def updateHeadersForContentType (contentType : String) (headers : List (String × String)) :
    List (String × String) :=
  if contentType = "json" then setKey headers "Content-Type" "application/json"
  else if contentType = "jpeg" then setKey headers "Content-Type" "image/jpeg"
  else if contentType = "multipart" then removeKey headers "Content-Type"
  else if contentType = "" then removeKey headers "Content-Type"
  else if contentType = "zip" then setKey headers "Content-Type" "application/zip"
  else headers

/-- The CSRF header update in `get_rest_response`: set the header for methods in
`csrf_header_methods`, pop it otherwise. -/
def updateCsrfHeader (method : String) (headers : List (String × String)) :
    List (String × String) :=
  if method ∈ CSRF_HEADER_METHODS then setKey headers CSRF_HEADER_NAME "1"
  else removeKey headers CSRF_HEADER_NAME

/-- Server configuration fields consumed by the session (`ServerTokenConfig` or
`ServerCredentialConfig`): hostname, API pattern, and the configured base URL. -/
structure ServerConfig where
  host : String
  apiPattern : String
  baseUrl : String
deriving DecidableEq

/-- The `base_url` property of `GetiSession`: configured base URL, with an
organization segment appended for platform versions after Geti 1.8. -/
def sessionBaseUrl (cfg : ServerConfig) (versionAtMost18 : Bool) (organizationId : String) :
    String :=
  if versionAtMost18 then cfg.baseUrl
  else cfg.baseUrl ++ "organizations/" ++ organizationId ++ "/"

/-- Python `str.startswith(p)`: prefix test on the character lists. -/
def charsPrefix : List Char → List Char → Bool
  | [], _ => true
  | _ :: _, [] => false
  | c :: cs, d :: ds => if c = d then charsPrefix cs ds else false

/-- Python `s.startswith(p)`. -/
def strStartsWith (s p : String) : Bool := charsPrefix p.data s.data

/-- Python slicing `s[n:]` (by characters, as in Python). -/
def strDrop (s : String) (n : Nat) : String := String.mk (s.data.drop n)

/-- Python `len(s)` (in characters, as in Python). -/
def strLength (s : String) : Nat := s.data.length

/-- The prefix strip at the top of `get_rest_response`:
`if url.startswith(api_pattern): url = url[len(api_pattern):]`. -/
def stripApiPattern (apiPattern url : String) : String :=
  if strStartsWith url apiPattern then strDrop url (strLength apiPattern) else url

/-- The caller-supplied `data` argument of `get_rest_response`: either an opaque
payload or the parts of a multi-part body, each a file name paired with the
current offset of its file-like buffer. -/
inductive RequestData where
  | blob (payload : String)
  | fileParts (files : List (String × Nat))
deriving DecidableEq

/-- Which keyword slot of `requests.request` the body lands in
(`json=`, `files=`, `data=`, or none). -/
inductive KwData where
  | empty
  | jsonArg (d : RequestData)
  | filesArg (d : RequestData)
  | dataArg (d : RequestData)
deriving DecidableEq

/-- Outcome of the body-encoding selection in `get_rest_response`. -/
inductive KwSelection where
  | ok (kw : KwData)
  | valueError (message : String)
deriving DecidableEq

/-- The body-encoding selection of `get_rest_response` (lines 317 to 330):
for POST and PUT the content kind chooses the keyword slot, and an unsupported
kind raises `ValueError`; every other method sends no body. -/
def selectKwData (method contentType : String) (data : RequestData) : KwSelection :=
  if method = "POST" ∨ method = "PUT" then
    if contentType = "json" then KwSelection.ok (KwData.jsonArg data)
    else if contentType = "multipart" then KwSelection.ok (KwData.filesArg data)
    else if contentType = "jpeg" ∨ contentType = "zip" then
      KwSelection.ok (KwData.dataArg data)
    else
      KwSelection.valueError
        ("Making a POST request with content of type " ++ contentType ++
          " is currently not supported through the Geti SDK.")
  else KwSelection.ok KwData.empty

/-- The `request_params` dictionary handed to `requests.request`, together with
the session headers in force when the request is dispatched. -/
structure RequestParams where
  method : String
  url : String
  kwData : KwData
  stream : Bool
  cookies : Option (List (String × Option String))
  headers : List (String × String)
deriving DecidableEq

/-- Session state consulted while `get_rest_response` builds a request. -/
structure DispatchContext where
  cfg : ServerConfig
  headers : List (String × String)
  useToken : Bool
  privCookies : List (String × Option String)
  organizationId : String
  versionAtMost18 : Bool
deriving DecidableEq

/-- Result of the request-construction phase of `get_rest_response`: either the
fully built request parameters, or a `ValueError` raised before any network
request is issued. -/
inductive DispatchResult where
  | request (params : RequestParams)
  | valueError (message : String)
deriving DecidableEq

/-- True when the construction phase produced a request to dispatch. -/
def DispatchResult.isRequest : DispatchResult → Bool
  | DispatchResult.request _ => true
  | DispatchResult.valueError _ => false

/-- The request-construction phase of `get_rest_response` (lines 305 to 349), in
source order: strip the API pattern from the relative URL, update the session
headers for the content type, pick the base URL, select the body encoding (which
may raise), attach session cookies for cookie-based sessions, and set or pop the
CSRF header according to the method. -/
def dispatchPlan (ctx : DispatchContext) (url method contentType : String)
    (data : RequestData) (includeOrganizationId : Bool) : DispatchResult :=
  let strippedUrl := stripApiPattern ctx.cfg.apiPattern url
  let headers1 := updateHeadersForContentType contentType ctx.headers
  let requestUrl :=
    if ¬ includeOrganizationId = true ∨
        strStartsWith strippedUrl ("organizations/" ++ ctx.organizationId ++ "/") then
      ctx.cfg.baseUrl ++ strippedUrl
    else
      sessionBaseUrl ctx.cfg ctx.versionAtMost18 ctx.organizationId ++ strippedUrl
  match selectKwData method contentType data with
  | KwSelection.valueError message => DispatchResult.valueError message
  | KwSelection.ok kw =>
    let headers2 := updateCsrfHeader method headers1
    DispatchResult.request
      ⟨method, requestUrl, kw, true,
        if ctx.useToken then none else some ctx.privCookies, headers2⟩

theorem dispatchPlan_headers (ctx : DispatchContext) (url method contentType : String)
    (data : RequestData) (includeOrganizationId : Bool) (p : RequestParams)
    (h : dispatchPlan ctx url method contentType data includeOrganizationId =
      DispatchResult.request p) :
    p.headers = updateCsrfHeader method (updateHeadersForContentType contentType ctx.headers) := by
  cases hsel : selectKwData method contentType data with
  | valueError message =>
    simp [dispatchPlan, hsel] at h
  | ok kw =>
    simp only [dispatchPlan, hsel, DispatchResult.request.injEq] at h
    rw [← h]

theorem updateHeadersForContentType_csrf (contentType : String)
    (hs : List (String × String)) :
    lookupAssoc (updateHeadersForContentType contentType hs) CSRF_HEADER_NAME =
      lookupAssoc hs CSRF_HEADER_NAME := by
  have hne : ("Content-Type" : String) ≠ CSRF_HEADER_NAME := by decide
  unfold updateHeadersForContentType
  by_cases h1 : contentType = "json" <;>
    by_cases h2 : contentType = "jpeg" <;>
      by_cases h3 : contentType = "multipart" <;>
        by_cases h4 : contentType = "" <;>
          by_cases h5 : contentType = "zip" <;>
            simp [h1, h2, h3, h4, h5, lookupAssoc_setKey_ne _ _ _ _ hne,
              lookupAssoc_removeKey_ne _ _ _ hne]

/-- C9 counterexample: DELETE is a mutating method, "weird" is outside the supported
content kinds, yet `get_rest_response` builds and dispatches the request instead of
raising a construction-time error — the encoding check only guards POST and PUT. -/
theorem c9_delete_unsupported_kind_counterexample :
    "DELETE" ∈ CSRF_HEADER_METHODS ∧
    ¬ "weird" ∈ ["json", "multipart", "jpeg", "zip"] ∧
    (dispatchPlan ⟨⟨"h", "/api/v1/", "h/api/v1/"⟩, [], false, [], "org", true⟩
      "projects" "DELETE" "weird" (RequestData.blob "d") false).isRequest = true := by
  refine ⟨by decide, by decide, by decide⟩

/-- C9 (amended): for POST or PUT with a content kind outside the supported set
(json, multipart, jpeg, zip) the dispatcher raises a ValueError at construction
time, before any request is built or issued; for every other method — including
the mutating DELETE and PATCH — the content kind never causes an error and a
request is always built. -/
theorem c9_unsupported_content_kind (ctx : DispatchContext) (url method contentType : String)
    (data : RequestData) (includeOrganizationId : Bool) :
    ((method = "POST" ∨ method = "PUT") →
      ¬ contentType ∈ ["json", "multipart", "jpeg", "zip"] →
      dispatchPlan ctx url method contentType data includeOrganizationId =
        DispatchResult.valueError
          ("Making a POST request with content of type " ++ contentType ++
            " is currently not supported through the Geti SDK.")) ∧
    (¬ (method = "POST" ∨ method = "PUT") →
      (dispatchPlan ctx url method contentType data includeOrganizationId).isRequest = true) := by
  constructor
  · intro hm hct
    simp only [List.mem_cons, List.mem_singleton, not_or] at hct
    obtain ⟨h1, h2, h3, h4⟩ := hct
    rcases hm with hm | hm <;> subst hm <;>
      simp [dispatchPlan, selectKwData, h1, h2, h3, h4]
  · intro hm
    simp [dispatchPlan, selectKwData, hm, DispatchResult.isRequest]

/-- C9 witness: the amended statement evaluated at POST with content kind "weird". -/
theorem c9_unsupported_content_kind_witness :
    dispatchPlan ⟨⟨"h", "/api/v1/", "h/api/v1/"⟩, [], false, [], "org", true⟩
      "projects" "POST" "weird" (RequestData.blob "d") false =
      DispatchResult.valueError
        ("Making a POST request with content of type " ++ "weird" ++
          " is currently not supported through the Geti SDK.") :=
  (c9_unsupported_content_kind ⟨⟨"h", "/api/v1/", "h/api/v1/"⟩, [], false, [], "org", true⟩
    "projects" "POST" "weird" (RequestData.blob "d") false).1 (Or.inl rfl) (by decide)

/-- C10 counterexample: with API pattern "/api/v1/", the relative URL
"/api/v1//api/v1/projects" begins with the pattern, but calling the dispatcher
with it is not the same as calling with the prefix stripped — the strip is applied
only once, so the two calls build different request URLs. -/
theorem c10_doubled_api_pattern_counterexample :
    strStartsWith "/api/v1//api/v1/projects" "/api/v1/" = true ∧
    strDrop "/api/v1//api/v1/projects" (strLength "/api/v1/") = "/api/v1/projects" ∧
    dispatchPlan ⟨⟨"h", "/api/v1/", "h/api/v1/"⟩, [], false, [], "org", true⟩
        "/api/v1//api/v1/projects" "GET" "json" (RequestData.blob "d") false ≠
      dispatchPlan ⟨⟨"h", "/api/v1/", "h/api/v1/"⟩, [], false, [], "org", true⟩
        "/api/v1/projects" "GET" "json" (RequestData.blob "d") false := by
  refine ⟨by decide, by decide, by decide⟩

/-- C10 (amended): when the relative URL begins with the configured API pattern and
the remainder after stripping does not itself begin with the pattern again, the
dispatcher behaves identically on the prefixed and on the stripped URL: the whole
built request (URL, body, cookies, headers) is equal, so the same result follows. -/
theorem c10_api_pattern_strip (ctx : DispatchContext) (url method contentType : String)
    (data : RequestData) (includeOrganizationId : Bool)
    (h1 : strStartsWith url ctx.cfg.apiPattern = true)
    (h2 : strStartsWith (strDrop url (strLength ctx.cfg.apiPattern)) ctx.cfg.apiPattern = false) :
    dispatchPlan ctx url method contentType data includeOrganizationId =
      dispatchPlan ctx (strDrop url (strLength ctx.cfg.apiPattern)) method contentType data
        includeOrganizationId := by
  have hs1 : stripApiPattern ctx.cfg.apiPattern url =
      strDrop url (strLength ctx.cfg.apiPattern) := by
    simp [stripApiPattern, h1]
  have hs2 : stripApiPattern ctx.cfg.apiPattern (strDrop url (strLength ctx.cfg.apiPattern)) =
      strDrop url (strLength ctx.cfg.apiPattern) := by
    simp [stripApiPattern, h2]
  simp only [dispatchPlan, hs1, hs2]

/-- C10 witness: the amended equivalence at the concrete URL "/api/v1/projects". -/
theorem c10_api_pattern_strip_witness :
    strStartsWith "/api/v1/projects" "/api/v1/" = true ∧
    strStartsWith (strDrop "/api/v1/projects" 8) "/api/v1/" = false ∧
    dispatchPlan ⟨⟨"h", "/api/v1/", "h/api/v1/"⟩, [], false, [], "org", true⟩
        "/api/v1/projects" "GET" "json" (RequestData.blob "d") false =
      dispatchPlan ⟨⟨"h", "/api/v1/", "h/api/v1/"⟩, [], false, [], "org", true⟩
        (strDrop "/api/v1/projects" 8) "GET" "json" (RequestData.blob "d") false :=
  ⟨by decide, by decide,
    c10_api_pattern_strip ⟨⟨"h", "/api/v1/", "h/api/v1/"⟩, [], false, [], "org", true⟩
      "/api/v1/projects" "GET" "json" (RequestData.blob "d") false
      (by decide) (by decide)⟩

/-- The payload of a `GetiRequestException`: the typed request failure carries the
method, the URL, and the status code of the failed response (plus request and
response data, elided here). -/
structure GetiRequestExceptionData where
  method : String
  url : String
  statusCode : Nat
deriving DecidableEq

/-- Outcome of `_handle_error_response`: either a response returned to the caller
or a raised `GetiRequestException`. -/
inductive RequestOutcome where
  | ok (statusCode : Nat)
  | raised (e : GetiRequestExceptionData)
deriving DecidableEq

/-- The buffer rewind loop of `_handle_error_response`: every file-like part is
sought back to offset 0 (`file_buffer.seek(0, 0)`). -/
def rewindFiles : RequestData → RequestData
  | RequestData.fileParts files => RequestData.fileParts (files.map (fun p => (p.1, 0)))
  | RequestData.blob payload => RequestData.blob payload

/-- Apply the rewind to the `files` entry of the request parameters. -/
def rewindKwFiles : KwData → KwData
  | KwData.filesArg d => KwData.filesArg (rewindFiles d)
  | kw => kw

/-- The shared retry tail of `_handle_error_response` (`if retry_request:`): the
session headers are restored for the content type, multi-part file buffers are
rewound, the original request is dispatched a second time — with the session
headers as they stand at that moment — and a non-success second response falls
through to the raise. `headers` is the session-header state entering the tail
(after any re-authentication mutated it); `retryStatus` is the status code the
server gives the retried request. -/
def retryOriginalRequest (contentType : String) (params : RequestParams)
    (retryStatus : Nat) (headers : List (String × String)) :
    RequestParams × List (String × String) × RequestOutcome :=
  let headersOut := updateHeadersForContentType contentType headers
  let retriedParams :=
    if contentType = "multipart" then
      { params with kwData := rewindKwFiles params.kwData, headers := headersOut }
    else { params with headers := headersOut }
  if retryStatus ∈ SUCCESS_STATUS_CODES then
    (retriedParams, headersOut, RequestOutcome.ok retryStatus)
  else
    (retriedParams, headersOut,
      RequestOutcome.raised ⟨params.method, params.url, retryStatus⟩)

theorem retryOriginalRequest_fst (contentType : String) (params : RequestParams)
    (retryStatus : Nat) (headers : List (String × String)) :
    (retryOriginalRequest contentType params retryStatus headers).1 =
      if contentType = "multipart" then
        { params with kwData := rewindKwFiles params.kwData,
                      headers := updateHeadersForContentType contentType headers }
      else { params with headers := updateHeadersForContentType contentType headers } := by
  by_cases h : retryStatus ∈ SUCCESS_STATUS_CODES <;> simp [retryOriginalRequest, h]

theorem retryOriginalRequest_fst_headers (contentType : String) (params : RequestParams)
    (retryStatus : Nat) (headers : List (String × String)) :
    ((retryOriginalRequest contentType params retryStatus headers).1).headers =
      updateHeadersForContentType contentType headers := by
  rw [retryOriginalRequest_fst]
  by_cases h : contentType = "multipart" <;> simp [h]

/-- The session-header state after the re-authentication of the 200/401 branch of
`_handle_error_response`. For a credential session, `authenticate` runs
`self.headers.clear()` and installs only the form-urlencoded content type (lines
249 to 250). For a token session, `_acquire_access_token` issues a nested POST
through `get_rest_response` — which sets the JSON content type and, POST being a
CSRF method, the CSRF protection header — and then the bearer token is written
into the `Authorization` header (lines 518 to 520). -/
def reauthenticatedHeaders (useToken : Bool) (accessToken : String)
    (headers : List (String × String)) : List (String × String) :=
  if useToken then
    setKey (updateCsrfHeader "POST" (updateHeadersForContentType "json" headers))
      "Authorization" ("Bearer " ++ accessToken)
  else [("Content-Type", "application/x-www-form-urlencoded")]

/-- Observable effects of one `_handle_error_response` invocation. -/
structure ErrorHandlerResult where
  sessionInvalidated : Bool
  loginFlowRun : Bool
  tokenRefreshed : Bool
  slept : Bool
  retried : Bool
  retryCount : Nat
  retriedParams : Option RequestParams
  headers : List (String × String)
  outcome : RequestOutcome
deriving DecidableEq

/-- The `_handle_error_response` method of `GetiSession` (lines 486 to 557).

For status 200 or 401 with `allow_reauthentication` the session is invalidated
(`logged_in = False`) and re-authenticated — the login flow for credential
sessions, a token refresh for token sessions, each mutating the session headers
as `reauthenticatedHeaders` records — and the request is retried once; for
status 503 the session sleeps one second and retries once without touching
authentication or headers; in every other case, and when the single retry also
fails, a `GetiRequestException` is raised. Re-authentication itself is abstracted
as succeeding, with `accessToken` the bearer token a refresh would obtain;
`status` is the failed response's code and `retryStatus` the code the server
would give a retry. -/
def handleErrorResponse (useToken allowReauthentication : Bool) (contentType : String)
    (params : RequestParams) (status retryStatus : Nat) (accessToken : String)
    (headers : List (String × String)) : ErrorHandlerResult :=
  if (status = 200 ∨ status = 401) ∧ allowReauthentication = true then
    let headersAfterReauth := reauthenticatedHeaders useToken accessToken headers
    let r := retryOriginalRequest contentType params retryStatus headersAfterReauth
    ⟨true, !useToken, useToken, false, true, 1, some r.1, r.2.1, r.2.2⟩
  else if status = 503 then
    let r := retryOriginalRequest contentType params retryStatus headers
    ⟨false, false, false, true, true, 1, some r.1, r.2.1, r.2.2⟩
  else
    ⟨false, false, false, false, false, 0, none, headers,
      RequestOutcome.raised ⟨params.method, params.url, status⟩⟩

/-- C1: the error recovery decision table. For status 200 or 401 with recovery
permitted, the session is invalidated and re-authenticated (login flow for
credential sessions, token refresh for token sessions) and the request is retried
exactly once without sleeping; for status 503 the handler sleeps and retries
exactly once without re-authenticating; in every other case — recovery disallowed
or any other status — no retry happens and the typed failure carrying method, URL
and status is raised at once; a failed retry raises the typed failure with the
retry's status; and the retry count never exceeds one. -/
theorem c1_error_recovery (useToken allowReauthentication : Bool) (contentType : String)
    (params : RequestParams) (status retryStatus : Nat) (accessToken : String)
    (headers : List (String × String)) :
    (((status = 200 ∨ status = 401) ∧ allowReauthentication = true) →
      (handleErrorResponse useToken allowReauthentication contentType params status
          retryStatus accessToken headers).sessionInvalidated = true ∧
      (handleErrorResponse useToken allowReauthentication contentType params status
          retryStatus accessToken headers).loginFlowRun = !useToken ∧
      (handleErrorResponse useToken allowReauthentication contentType params status
          retryStatus accessToken headers).tokenRefreshed = useToken ∧
      (handleErrorResponse useToken allowReauthentication contentType params status
          retryStatus accessToken headers).retryCount = 1 ∧
      (handleErrorResponse useToken allowReauthentication contentType params status
          retryStatus accessToken headers).slept = false) ∧
    (status = 503 →
      (handleErrorResponse useToken allowReauthentication contentType params status
          retryStatus accessToken headers).slept = true ∧
      (handleErrorResponse useToken allowReauthentication contentType params status
          retryStatus accessToken headers).retryCount = 1 ∧
      (handleErrorResponse useToken allowReauthentication contentType params status
          retryStatus accessToken headers).sessionInvalidated = false ∧
      (handleErrorResponse useToken allowReauthentication contentType params status
          retryStatus accessToken headers).loginFlowRun = false ∧
      (handleErrorResponse useToken allowReauthentication contentType params status
          retryStatus accessToken headers).tokenRefreshed = false) ∧
    (¬ ((status = 200 ∨ status = 401) ∧ allowReauthentication = true) → ¬ status = 503 →
      (handleErrorResponse useToken allowReauthentication contentType params status
          retryStatus accessToken headers).retryCount = 0 ∧
      (handleErrorResponse useToken allowReauthentication contentType params status
          retryStatus accessToken headers).outcome =
        RequestOutcome.raised ⟨params.method, params.url, status⟩) ∧
    ((handleErrorResponse useToken allowReauthentication contentType params status
          retryStatus accessToken headers).retried = true →
      ¬ retryStatus ∈ SUCCESS_STATUS_CODES →
      (handleErrorResponse useToken allowReauthentication contentType params status
          retryStatus accessToken headers).outcome =
        RequestOutcome.raised ⟨params.method, params.url, retryStatus⟩) ∧
    ((handleErrorResponse useToken allowReauthentication contentType params status
          retryStatus accessToken headers).retried = true →
      retryStatus ∈ SUCCESS_STATUS_CODES →
      (handleErrorResponse useToken allowReauthentication contentType params status
          retryStatus accessToken headers).outcome = RequestOutcome.ok retryStatus) ∧
    (handleErrorResponse useToken allowReauthentication contentType params status
        retryStatus accessToken headers).retryCount ≤ 1 := by
  by_cases h1 : (status = 200 ∨ status = 401) ∧ allowReauthentication = true
  · have hne : ¬ status = 503 := by rcases h1.1 with h | h <;> omega
    by_cases h3 : retryStatus ∈ SUCCESS_STATUS_CODES <;>
      simp [handleErrorResponse, retryOriginalRequest, h1, h3, hne]
  · by_cases h2 : status = 503
    · by_cases h3 : retryStatus ∈ SUCCESS_STATUS_CODES <;>
        simp [handleErrorResponse, retryOriginalRequest, h1, h2, h3]
    · simp [handleErrorResponse, h1, h2]

/-- C1 witness: a 401 with recovery permitted on a credential session whose retry
fails again with 401 — invalidation, one login-flow run, one retry, and the typed
failure with the retry status. -/
theorem c1_error_recovery_witness :
    ((401 = 200 ∨ 401 = 401) ∧ true = true) ∧
    (handleErrorResponse false true "json"
        ⟨"GET", "h/api/v1/projects", KwData.empty, true, some [], []⟩
        401 401 "t" []).sessionInvalidated = true ∧
    (handleErrorResponse false true "json"
        ⟨"GET", "h/api/v1/projects", KwData.empty, true, some [], []⟩
        401 401 "t" []).loginFlowRun = true ∧
    (handleErrorResponse false true "json"
        ⟨"GET", "h/api/v1/projects", KwData.empty, true, some [], []⟩
        401 401 "t" []).retryCount = 1 ∧
    (handleErrorResponse false true "json"
        ⟨"GET", "h/api/v1/projects", KwData.empty, true, some [], []⟩
        401 401 "t" []).outcome = RequestOutcome.raised ⟨"GET", "h/api/v1/projects", 401⟩ := by
  have h := c1_error_recovery false true "json"
    ⟨"GET", "h/api/v1/projects", KwData.empty, true, some [], []⟩ 401 401 "t" []
  have hcond : ((401 : Nat) = 200 ∨ (401 : Nat) = 401) ∧ true = true := by decide
  refine ⟨hcond, (h.1 hcond).1, ?_, (h.1 hcond).2.2.2.1, ?_⟩
  · have := (h.1 hcond).2.1
    simpa using this
  · exact h.2.2.2.1 (by decide) (by decide)

/-- C5 counterexample: on the re-authentication retry path the CSRF header rule
fails in both directions. A token session whose GET fails with 401 dispatches its
retry carrying the CSRF header, because the token refresh runs a nested POST
through `get_rest_response` that sets the header and nothing removes it before
the retry; a credential session whose POST fails with 401 dispatches its retry
without the CSRF header, because the login flow clears the session headers and
installs only a content type. -/
theorem c5_csrf_header_retry_counterexample :
    ¬ "GET" ∈ CSRF_HEADER_METHODS ∧
    (handleErrorResponse true true "json" ⟨"GET", "u", KwData.empty, true, none, []⟩
        401 200 "t" []).retried = true ∧
    ((handleErrorResponse true true "json" ⟨"GET", "u", KwData.empty, true, none, []⟩
          401 200 "t" []).retriedParams.map
        (fun p => lookupAssoc p.headers CSRF_HEADER_NAME)) = some (some "1") ∧
    "POST" ∈ CSRF_HEADER_METHODS ∧
    (handleErrorResponse false true "json"
        ⟨"POST", "u", KwData.jsonArg (RequestData.blob "d"), true, some [], []⟩
        401 200 "t" []).retried = true ∧
    ((handleErrorResponse false true "json"
          ⟨"POST", "u", KwData.jsonArg (RequestData.blob "d"), true, some [], []⟩
          401 200 "t" []).retriedParams.map
        (fun p => lookupAssoc p.headers CSRF_HEADER_NAME)) = some none := by
  refine ⟨by decide, by decide, by decide, by decide, by decide, by decide⟩

/-- C5 (amended): the CSRF protection header is attached exactly when the method
is mutating (POST, PUT, DELETE, PATCH) on the request `get_rest_response`
initially constructs, and a 503 retry preserves the header state, so the rule
carries over to that retry; but on the 200/401 re-authentication retry path the
rule breaks: after a credential re-authentication the retried request never
carries the header, while after a token refresh the retried request always
carries it, regardless of the method. -/
theorem c5_csrf_header_dispatch_and_retry (ctx : DispatchContext)
    (url method contentType : String) (data : RequestData)
    (includeOrganizationId : Bool) (p : RequestParams)
    (useToken allowReauthentication : Bool) (params : RequestParams)
    (status retryStatus : Nat) (accessToken : String)
    (hs : List (String × String)) :
    (dispatchPlan ctx url method contentType data includeOrganizationId =
        DispatchResult.request p →
      (lookupAssoc p.headers CSRF_HEADER_NAME = some "1" ↔ method ∈ CSRF_HEADER_METHODS)) ∧
    (status = 503 →
      ∃ rp, (handleErrorResponse useToken allowReauthentication contentType params
          status retryStatus accessToken hs).retriedParams = some rp ∧
        lookupAssoc rp.headers CSRF_HEADER_NAME = lookupAssoc hs CSRF_HEADER_NAME) ∧
    (((status = 200 ∨ status = 401) ∧ allowReauthentication = true) → useToken = false →
      ∃ rp, (handleErrorResponse useToken allowReauthentication contentType params
          status retryStatus accessToken hs).retriedParams = some rp ∧
        lookupAssoc rp.headers CSRF_HEADER_NAME = none) ∧
    (((status = 200 ∨ status = 401) ∧ allowReauthentication = true) → useToken = true →
      ∃ rp, (handleErrorResponse useToken allowReauthentication contentType params
          status retryStatus accessToken hs).retriedParams = some rp ∧
        lookupAssoc rp.headers CSRF_HEADER_NAME = some "1") := by
  refine ⟨?_, ?_, ?_, ?_⟩
  · intro hreq
    rw [dispatchPlan_headers ctx url method contentType data includeOrganizationId p hreq]
    by_cases hm : method ∈ CSRF_HEADER_METHODS
    · simp [updateCsrfHeader, hm, lookupAssoc_setKey_self]
    · simp [updateCsrfHeader, hm, lookupAssoc_removeKey_self]
  · intro h2
    have h1 : ¬ ((status = 200 ∨ status = 401) ∧ allowReauthentication = true) := by
      intro hcontra
      rcases hcontra.1 with h | h <;> omega
    refine ⟨(retryOriginalRequest contentType params retryStatus hs).1, ?_, ?_⟩
    · simp [handleErrorResponse, h1, h2]
    · rw [retryOriginalRequest_fst_headers, updateHeadersForContentType_csrf]
  · intro h1 htok
    subst htok
    refine ⟨(retryOriginalRequest contentType params retryStatus
        (reauthenticatedHeaders false accessToken hs)).1, ?_, ?_⟩
    · simp [handleErrorResponse, h1]
    · rw [retryOriginalRequest_fst_headers, updateHeadersForContentType_csrf]
      simp only [reauthenticatedHeaders, Bool.false_eq_true, if_false]
      decide
  · intro h1 htok
    subst htok
    refine ⟨(retryOriginalRequest contentType params retryStatus
        (reauthenticatedHeaders true accessToken hs)).1, ?_, ?_⟩
    · simp [handleErrorResponse, h1]
    · rw [retryOriginalRequest_fst_headers, updateHeadersForContentType_csrf]
      simp only [reauthenticatedHeaders, if_true]
      rw [lookupAssoc_setKey_ne _ "Authorization" CSRF_HEADER_NAME _ (by decide)]
      have hpost : ("POST" : String) ∈ CSRF_HEADER_METHODS := by decide
      simp [updateCsrfHeader, hpost, lookupAssoc_setKey_self]

/-- C5 witness: the amended rule at a concretely built POST, and the
token-refresh retry of a concrete failed GET carrying the header. -/
theorem c5_csrf_header_dispatch_and_retry_witness :
    (lookupAssoc
        (RequestParams.headers
          ⟨"POST", "h/api/v1/projects", KwData.jsonArg (RequestData.blob "d"), true,
            some [], [(CSRF_HEADER_NAME, "1"), ("Content-Type", "application/json")]⟩)
        CSRF_HEADER_NAME = some "1" ↔ "POST" ∈ CSRF_HEADER_METHODS) ∧
    (∃ rp, (handleErrorResponse true true "json"
          ⟨"GET", "u", KwData.empty, true, none, []⟩ 401 200 "t" []).retriedParams =
        some rp ∧
      lookupAssoc rp.headers CSRF_HEADER_NAME = some "1") :=
  ⟨(c5_csrf_header_dispatch_and_retry
      ⟨⟨"h", "/api/v1/", "h/api/v1/"⟩, [], false, [], "org", true⟩
      "projects" "POST" "json" (RequestData.blob "d") false
      ⟨"POST", "h/api/v1/projects", KwData.jsonArg (RequestData.blob "d"), true,
        some [], [(CSRF_HEADER_NAME, "1"), ("Content-Type", "application/json")]⟩
      true true ⟨"GET", "u", KwData.empty, true, none, []⟩ 401 200 "t" []).1 (by decide),
    (c5_csrf_header_dispatch_and_retry
      ⟨⟨"h", "/api/v1/", "h/api/v1/"⟩, [], false, [], "org", true⟩
      "projects" "POST" "json" (RequestData.blob "d") false
      ⟨"POST", "h/api/v1/projects", KwData.jsonArg (RequestData.blob "d"), true,
        some [], [(CSRF_HEADER_NAME, "1"), ("Content-Type", "application/json")]⟩
      true true ⟨"GET", "u", KwData.empty, true, none, []⟩ 401 200 "t" []).2.2.2
      (by decide) rfl⟩

/-- C8: whenever the error handler retries a request whose content kind is
multipart, every file-like part in the retried request's body has been rewound to
offset 0 before the retry is dispatched. -/
theorem c8_multipart_rewind (useToken allowReauthentication : Bool)
    (params : RequestParams) (status retryStatus : Nat) (accessToken : String)
    (headers : List (String × String)) (files : List (String × Nat))
    (hkw : params.kwData = KwData.filesArg (RequestData.fileParts files))
    (hret : (handleErrorResponse useToken allowReauthentication "multipart" params status
        retryStatus accessToken headers).retried = true) :
    ∃ retriedParams,
      (handleErrorResponse useToken allowReauthentication "multipart" params status
          retryStatus accessToken headers).retriedParams = some retriedParams ∧
      retriedParams.kwData =
        KwData.filesArg (RequestData.fileParts (files.map (fun p => (p.1, 0)))) ∧
      ∀ part ∈ files.map (fun p => (p.1, 0)), part.2 = 0 := by
  have hallzero : ∀ part ∈ files.map (fun p => (p.1, 0)), part.2 = (0 : Nat) := by
    intro part hpart
    simp only [List.mem_map] at hpart
    obtain ⟨p, _, hp⟩ := hpart
    rw [← hp]
  by_cases h1 : (status = 200 ∨ status = 401) ∧ allowReauthentication = true
  · refine ⟨(retryOriginalRequest "multipart" params retryStatus
        (reauthenticatedHeaders useToken accessToken headers)).1, ?_, ?_, hallzero⟩
    · simp [handleErrorResponse, h1]
    · rw [retryOriginalRequest_fst]
      simp [rewindKwFiles, rewindFiles, hkw]
  · by_cases h2 : status = 503
    · refine ⟨(retryOriginalRequest "multipart" params retryStatus headers).1,
        ?_, ?_, hallzero⟩
      · simp [handleErrorResponse, h1, h2]
      · rw [retryOriginalRequest_fst]
        simp [rewindKwFiles, rewindFiles, hkw]
    · exfalso
      simp [handleErrorResponse, h1, h2] at hret

/-- C8 witness: a multipart PUT whose buffer sits at offset 37 when the 503 retry
fires is rewound to offset 0 in the retried request. -/
theorem c8_multipart_rewind_witness :
    (handleErrorResponse false true "multipart"
        ⟨"PUT", "u", KwData.filesArg (RequestData.fileParts [("image.jpg", 37)]), true,
          some [], []⟩
        503 200 "t" []).retried = true ∧
    ∃ retriedParams,
      (handleErrorResponse false true "multipart"
          ⟨"PUT", "u", KwData.filesArg (RequestData.fileParts [("image.jpg", 37)]), true,
            some [], []⟩
          503 200 "t" []).retriedParams = some retriedParams ∧
      retriedParams.kwData =
        KwData.filesArg (RequestData.fileParts ([("image.jpg", 37)].map (fun p => (p.1, 0)))) ∧
      ∀ part ∈ ([(("image.jpg" : String), (37 : Nat))].map (fun p => (p.1, 0))), part.2 = 0 :=
  ⟨by decide,
    c8_multipart_rewind false true
      ⟨"PUT", "u", KwData.filesArg (RequestData.fileParts [("image.jpg", 37)]), true,
        some [], []⟩
      503 200 "t" [] [("image.jpg", 37)] rfl (by decide)⟩

/-- What the best-effort sign-out attempt in `logout` comes back with: a server
response with some status code, or one of the exception classes the surrounding
`try` distinguishes. -/
inductive SignOutResult where
  | response (statusCode : Nat)
  | requestException
  | attributeError
  | typeError
deriving DecidableEq

/-- Modelled from the spec: the class `GetiRequestException` is declared in
`http_session/exception.py`, which is not among the provided sources, so whether
the `except (RequestException, AttributeError)` clause in `logout` catches the
`GetiRequestException` raised on a non-success sign-out status depends on code
that is missing here. The spec states that failures during the best-effort
sign-out step are logged and never raised, because disposal must always complete,
so the exception is modelled as caught by that clause. -/
def getiRequestExceptionCaughtInLogout : Bool := true

/-- Session state touched by `logout`. -/
structure LogoutState where
  privCookies : List (String × Option String)
  jarCookies : List (String × String)
  headers : List (String × String)
  loggedIn : Bool
deriving DecidableEq

/-- Observable effects of one `logout` invocation. -/
structure LogoutResult where
  state : LogoutState
  signOutAttempted : Bool
  connectionsClosed : Bool
  raised : Bool
deriving DecidableEq

/-- The `logout` method of `GetiSession` (lines 387 to 441). Sign-out is attempted
only for logged-in cookie-based sessions; a `TypeError` from the attempt means the
session was already closed, so closing is skipped; all other failures of the
attempt are caught and logged; then cookies, headers and the logged-in flag are
cleared unconditionally and, when required, the underlying connections are closed
(a `TypeError` from closing is also swallowed). -/
def logout (s : LogoutState) (useToken : Bool) (signOut : SignOutResult) : LogoutResult :=
  let requiresSignOut : Bool := s.loggedIn && !useToken
  let raisedInTry : Bool :=
    requiresSignOut &&
      match signOut with
      | SignOutResult.response statusCode => !decide (statusCode ∈ SUCCESS_STATUS_CODES)
      | _ => false
  let raised : Bool := raisedInTry && !getiRequestExceptionCaughtInLogout
  let requiresClosing : Bool :=
    if requiresSignOut && decide (signOut = SignOutResult.typeError) then false
    else s.loggedIn && !useToken
  { state := ⟨[], [], INITIAL_HEADERS, false⟩,
    signOutAttempted := requiresSignOut,
    connectionsClosed := requiresClosing,
    raised := raised }

/-- C4: on a logged-in credential session, every invocation of `logout` attempts
the best-effort sign-out, never raises whatever that attempt comes back with, and
unconditionally clears the credential state — cookies emptied, headers reset to
the initial headers, logged-in set false — and closes the underlying connections
(except when a `TypeError` signals the session was already closed). -/
theorem c4_logout_always_completes (s : LogoutState) (useToken : Bool)
    (signOut : SignOutResult) (hin : s.loggedIn = true) (htok : useToken = false) :
    (logout s useToken signOut).signOutAttempted = true ∧
    (logout s useToken signOut).raised = false ∧
    (logout s useToken signOut).state.privCookies = [] ∧
    (logout s useToken signOut).state.jarCookies = [] ∧
    (logout s useToken signOut).state.headers = INITIAL_HEADERS ∧
    (logout s useToken signOut).state.loggedIn = false ∧
    (¬ signOut = SignOutResult.typeError →
      (logout s useToken signOut).connectionsClosed = true) := by
  subst htok
  refine ⟨?_, ?_, rfl, rfl, rfl, rfl, ?_⟩
  · simp [logout, hin]
  · simp [logout, getiRequestExceptionCaughtInLogout]
  · intro hne
    simp [logout, hin, hne]

/-- C4 witness: a sign-out attempt that raises a transport error still leaves the
session cleared, closed, and nothing propagated. -/
theorem c4_logout_always_completes_witness :
    (logout ⟨[(PROXY_COOKIE_NAME, some "c")], [("a", "b")], [("H", "V")], true⟩ false
        SignOutResult.requestException).signOutAttempted = true ∧
    (logout ⟨[(PROXY_COOKIE_NAME, some "c")], [("a", "b")], [("H", "V")], true⟩ false
        SignOutResult.requestException).raised = false ∧
    (logout ⟨[(PROXY_COOKIE_NAME, some "c")], [("a", "b")], [("H", "V")], true⟩ false
        SignOutResult.requestException).state.privCookies = [] ∧
    (logout ⟨[(PROXY_COOKIE_NAME, some "c")], [("a", "b")], [("H", "V")], true⟩ false
        SignOutResult.requestException).state.jarCookies = [] ∧
    (logout ⟨[(PROXY_COOKIE_NAME, some "c")], [("a", "b")], [("H", "V")], true⟩ false
        SignOutResult.requestException).state.headers = INITIAL_HEADERS ∧
    (logout ⟨[(PROXY_COOKIE_NAME, some "c")], [("a", "b")], [("H", "V")], true⟩ false
        SignOutResult.requestException).state.loggedIn = false ∧
    (¬ SignOutResult.requestException = SignOutResult.typeError →
      (logout ⟨[(PROXY_COOKIE_NAME, some "c")], [("a", "b")], [("H", "V")], true⟩ false
          SignOutResult.requestException).connectionsClosed = true) :=
  c4_logout_always_completes
    ⟨[(PROXY_COOKIE_NAME, some "c")], [("a", "b")], [("H", "V")], true⟩ false
    SignOutResult.requestException rfl rfl

/-- Modelled from the spec: `PlatformVersion` is "an ordered triple
(major, minor, patch) with total ordering" (spec, section 3); the `GetiVersion`
class itself lives in `platform_versions.py`, which is not among the provided
sources, so the version value and its ordering are taken from the spec's words. -/
structure GetiVersion where
  major : Nat
  minor : Nat
  patch : Nat
deriving DecidableEq

/-- Lexicographic strict order on platform versions. -/
def GetiVersion.lt (a b : GetiVersion) : Bool :=
  if a.major ≠ b.major then decide (a.major < b.major)
  else if a.minor ≠ b.minor then decide (a.minor < b.minor)
  else decide (a.patch < b.patch)

/-- Modelled from the spec: the fixed version threshold `GETI_114_VERSION`
(Geti 1.14) imported from `platform_versions.py`, which is not among the provided
sources. -/
def GETI_114_VERSION : GetiVersion := ⟨1, 14, 0⟩

/-- The default organization id constant in `_get_organization_id`. -/
def DEFAULT_ORGANIZATION_ID : String := "000000000000000000000001"

/-- Outcome of `_get_organization_id`: the resolved id or a raised `ValueError`. -/
inductive OrgIdOutcome where
  | ok (organizationId : String)
  | valueError
deriving DecidableEq

/-- Result of `_get_organization_id`, together with whether `GET profile` was
issued on the way. -/
structure OrgIdResult where
  profileRequested : Bool
  outcome : OrgIdOutcome
deriving DecidableEq

/-- The `_get_organization_id` method of `GetiSession` (lines 612 to 630).
`profileOrganizationId` is `result.get("organizationId", None)` of the profile
response, with `none` standing for a missing field. -/
def getOrganizationId (version : GetiVersion) (profileOrganizationId : Option String) :
    OrgIdResult :=
  let resolved :=
    if GetiVersion.lt version GETI_114_VERSION then
      (false, some DEFAULT_ORGANIZATION_ID)
    else
      (true, profileOrganizationId)
  match resolved.2 with
  | none => ⟨resolved.1, OrgIdOutcome.valueError⟩
  | some orgId => ⟨resolved.1, OrgIdOutcome.ok orgId⟩

/-- C6: below the Geti 1.14 threshold, organization id resolution returns the
constant default and issues no profile request; at or above the threshold the id
is fetched from the profile endpoint, a present `organizationId` field is
returned, and a missing field raises a `ValueError` rather than falling back to
the default. -/
theorem c6_organization_id (version : GetiVersion) (profileOrganizationId : Option String) :
    (GetiVersion.lt version GETI_114_VERSION = true →
      getOrganizationId version profileOrganizationId =
        ⟨false, OrgIdOutcome.ok DEFAULT_ORGANIZATION_ID⟩) ∧
    (GetiVersion.lt version GETI_114_VERSION = false →
      (getOrganizationId version profileOrganizationId).profileRequested = true ∧
      (profileOrganizationId = none →
        (getOrganizationId version profileOrganizationId).outcome = OrgIdOutcome.valueError) ∧
      (∀ orgId, profileOrganizationId = some orgId →
        (getOrganizationId version profileOrganizationId).outcome = OrgIdOutcome.ok orgId)) := by
  constructor
  · intro hlt
    simp [getOrganizationId, hlt]
  · intro hge
    refine ⟨?_, ?_, ?_⟩
    · cases profileOrganizationId <;> simp [getOrganizationId, hge]
    · intro hnone
      subst hnone
      simp [getOrganizationId, hge]
    · intro orgId horg
      subst horg
      simp [getOrganizationId, hge]

/-- C6 witness: version 1.8 uses the default without a profile request, and
version 1.15 with a profile response missing the field raises. -/
theorem c6_organization_id_witness :
    (GetiVersion.lt ⟨1, 8, 0⟩ GETI_114_VERSION = true ∧
      getOrganizationId ⟨1, 8, 0⟩ none =
        ⟨false, OrgIdOutcome.ok DEFAULT_ORGANIZATION_ID⟩) ∧
    (GetiVersion.lt ⟨1, 15, 0⟩ GETI_114_VERSION = false ∧
      (getOrganizationId ⟨1, 15, 0⟩ none).profileRequested = true ∧
      (getOrganizationId ⟨1, 15, 0⟩ none).outcome = OrgIdOutcome.valueError) :=
  ⟨⟨by decide, (c6_organization_id ⟨1, 8, 0⟩ none).1 (by decide)⟩,
    ⟨by decide, ((c6_organization_id ⟨1, 15, 0⟩ none).2 (by decide)).1,
      (((c6_organization_id ⟨1, 15, 0⟩ none).2 (by decide)).2.1 rfl)⟩⟩

/-- Result of `_handle_legacy_dex_response`: the proxy cookie captured from the
last entry of the redirect history, a logged warning when the history is present
but carries no proxy cookie, or the `ValueError` raised when the submission has no
redirect history at all. -/
inductive LegacyDexResult where
  | updatedCookie (value : String)
  | warned
  | raisedValueError
deriving DecidableEq

/-- The `_handle_legacy_dex_response` method (lines 632 to 654). `history` is the
cookie map of each response in `response.history`; `response.history[-1]` is its
last element, and an empty history raises. -/
def handleLegacyDexResponse (history : List (List (String × String))) : LegacyDexResult :=
  match history.getLast? with
  | none => LegacyDexResult.raisedValueError
  | some previousResponseCookies =>
    match lookupAssoc previousResponseCookies PROXY_COOKIE_NAME with
    | some proxyCookie => LegacyDexResult.updatedCookie proxyCookie
    | none => LegacyDexResult.warned

/-- Result of `_handle_dex_response` (the modern redirect login): the token from
the code exchange, a `ValueError` on 401, an uncaught `IndexError` when the 200
response URL carries no code parameter, or a `GetiRequestException` otherwise. -/
inductive DexResult where
  | exchangedCode (token : Option String)
  | raisedValueError (message : String)
  | raisedIndexError
  | raisedRequestError (statusCode : Nat)
deriving DecidableEq

/-- The decision part of `_handle_dex_response` (lines 656 to 697).
`submitUrlCode` is the `code` query parameter of the 200 response's URL (`none`
when absent, where the Python string splitting raises `IndexError`);
`tokenResponse` is `access_token` of the `dex/token` response. -/
def handleDexResponse (submitStatus : Nat) (submitUrlCode : Option String)
    (tokenResponse : Option String) : DexResult :=
  if submitStatus = 200 then
    match submitUrlCode with
    | none => DexResult.raisedIndexError
    | some _ => DexResult.exchangedCode tokenResponse
  else if submitStatus = 401 then
    DexResult.raisedValueError
      "The cluster responded to the request, but authentication failed."
  else DexResult.raisedRequestError submitStatus

/-- Session state touched by `authenticate`. -/
structure AuthState where
  jarCookies : List (String × String)
  privCookies : List (String × Option String)
  headers : List (String × String)
  loggedIn : Bool
  authService : Option String
deriving DecidableEq

/-- The server-side responses an `authenticate` run would observe: the deployment
descriptor (when the service cache is cold), the outcome of resolving the initial
login URL (its redirect hops and the CSRF cookie captured along the way), and the
credential submission's status, redirect-history cookies, code parameter, and
token-exchange response. -/
structure AuthWorld where
  deploymentResponse : Option Json
  redirectHops : Nat
  loginPath : String
  capturedCsrf : Option String
  submitStatus : Nat
  submitHistory : List (List (String × String))
  submitUrlCode : Option String
  tokenResponse : Option String

/-- How one `authenticate` invocation ends. -/
inductive AuthOutcome where
  | ok
  | valueError (message : String)
  | indexError
  | requestError (e : GetiRequestExceptionData)
deriving DecidableEq

/-- Observable effects of one `authenticate` invocation: the state it leaves, how
many network requests it issued, how it ended, and whether it logged the
missing-proxy-cookie warning. -/
structure AuthResult where
  state : AuthState
  networkCalls : Nat
  outcome : AuthOutcome
  warned : Bool
deriving DecidableEq

/-- The `authenticate` method of `GetiSession` (lines 210 to 273). Already
logged-in sessions return at once. Otherwise the backend is resolved (fetching
the deployment descriptor when uncached), an unsupported backend raises before
any state is touched, and the legacy or modern login flow runs: session cookies
are cleared, the initial login URL is resolved (one request plus the redirect
hops, capturing the CSRF cookie on the legacy path), headers are reset to the
form content type, credentials are posted, and the backend-specific response
handler decides between raising and marking the session logged in. -/
def authenticate (s : AuthState) (w : AuthWorld) : AuthResult :=
  if s.loggedIn then ⟨s, 0, AuthOutcome.ok, false⟩
  else
    let svc := authenticationService s.authService w.deploymentResponse
    let serviceCalls := if svc.fetched then 1 else 0
    let s0 : AuthState := { s with authService := svc.cache }
    if svc.service = AUTHENTICATION_DEX_OLD ∨ svc.service = AUTHENTICATION_DEX_NEW then
      let useLegacyDex := svc.service = AUTHENTICATION_DEX_OLD
      let s1 := { s0 with jarCookies := [] }
      let initialLoginCalls := 1 + w.redirectHops
      let s2 :=
        if useLegacyDex then
          match w.capturedCsrf with
          | some csrf =>
            { s1 with privCookies := setKey s1.privCookies CSRF_COOKIE_NAME (some csrf) }
          | none => s1
        else s1
      let s3 := { s2 with headers := [("Content-Type", "application/x-www-form-urlencoded")] }
      let baseCalls := serviceCalls + initialLoginCalls + 1
      if useLegacyDex then
        match handleLegacyDexResponse w.submitHistory with
        | LegacyDexResult.raisedValueError =>
          ⟨s3, baseCalls,
            AuthOutcome.valueError
              "The cluster responded to the request, but authentication failed.",
            false⟩
        | LegacyDexResult.updatedCookie proxyCookie =>
          ⟨{ s3 with
              privCookies := setKey s3.privCookies PROXY_COOKIE_NAME (some proxyCookie),
              loggedIn := true },
            baseCalls, AuthOutcome.ok, false⟩
        | LegacyDexResult.warned =>
          ⟨{ s3 with loggedIn := true }, baseCalls, AuthOutcome.ok, true⟩
      else
        match handleDexResponse w.submitStatus w.submitUrlCode w.tokenResponse with
        | DexResult.exchangedCode token =>
          ⟨{ s3 with
              privCookies := setKey s3.privCookies GETI_COOKIE_NAME token,
              loggedIn := true },
            baseCalls + 1, AuthOutcome.ok, false⟩
        | DexResult.raisedValueError message =>
          ⟨s3, baseCalls, AuthOutcome.valueError message, false⟩
        | DexResult.raisedIndexError => ⟨s3, baseCalls, AuthOutcome.indexError, false⟩
        | DexResult.raisedRequestError statusCode =>
          ⟨s3, baseCalls,
            AuthOutcome.requestError ⟨"POST", w.loginPath, statusCode⟩, false⟩
    else
      ⟨s0, serviceCalls,
        AuthOutcome.valueError
          "Unable to start the authentication process: unsupported authentication service",
        false⟩

/-- C7: invoking `authenticate` on a session that is already logged in is a
no-op — zero network calls, the whole session state (cookies, headers, logged-in
flag, cached backend) unchanged, and a normal return. -/
theorem c7_authenticate_idempotent (s : AuthState) (w : AuthWorld)
    (hin : s.loggedIn = true) :
    authenticate s w = ⟨s, 0, AuthOutcome.ok, false⟩ := by
  simp [authenticate, hin]

/-- C7 witness: a concrete logged-in session is returned untouched with zero
network calls. -/
theorem c7_authenticate_idempotent_witness :
    authenticate
        ⟨[("a", "b")], [(PROXY_COOKIE_NAME, some "c")], INITIAL_HEADERS, true,
          some AUTHENTICATION_DEX_OLD⟩
        ⟨none, 0, "login", none, 200, [], none, none⟩ =
      ⟨⟨[("a", "b")], [(PROXY_COOKIE_NAME, some "c")], INITIAL_HEADERS, true,
          some AUTHENTICATION_DEX_OLD⟩,
        0, AuthOutcome.ok, false⟩ :=
  c7_authenticate_idempotent
    ⟨[("a", "b")], [(PROXY_COOKIE_NAME, some "c")], INITIAL_HEADERS, true,
      some AUTHENTICATION_DEX_OLD⟩
    ⟨none, 0, "login", none, 200, [], none, none⟩ rfl

/-- C2 counterexample: a legacy login whose credential submission succeeds with a
one-hop redirect history that carries no `_oauth2_proxy` cookie does not raise —
the warning is only logged — and the session still ends logged in, contradicting
the claim that the missing proxy cookie is a terminal authentication failure. -/
theorem c2_missing_proxy_cookie_counterexample :
    lookupAssoc ([] : List (String × String)) PROXY_COOKIE_NAME = none ∧
    (authenticate ⟨[], [], [], false, some AUTHENTICATION_DEX_OLD⟩
        ⟨none, 0, "login", none, 200, [[]], none, none⟩).outcome = AuthOutcome.ok ∧
    (authenticate ⟨[], [], [], false, some AUTHENTICATION_DEX_OLD⟩
        ⟨none, 0, "login", none, 200, [[]], none, none⟩).state.loggedIn = true := by
  refine ⟨rfl, by decide, by decide⟩

/-- C2 (amended): in the legacy login, only an empty redirect history is a
terminal authentication failure — the login raises a `ValueError` and the session
stays logged out; a non-empty redirect history whose last response carries no
proxy session cookie merely logs a warning, and the login completes with the
session logged in (and no proxy cookie stored). -/
theorem c2_legacy_redirect_cookie (s : AuthState) (w : AuthWorld)
    (hin : s.loggedIn = false) (hsvc : s.authService = some AUTHENTICATION_DEX_OLD) :
    (w.submitHistory = [] →
      (authenticate s w).outcome =
        AuthOutcome.valueError
          "The cluster responded to the request, but authentication failed." ∧
      (authenticate s w).state.loggedIn = false) ∧
    (∀ previousResponseCookies,
      w.submitHistory.getLast? = some previousResponseCookies →
      lookupAssoc previousResponseCookies PROXY_COOKIE_NAME = none →
      (authenticate s w).outcome = AuthOutcome.ok ∧
      (authenticate s w).state.loggedIn = true ∧
      (authenticate s w).warned = true) := by
  constructor
  · intro hhist
    have hlegacy : handleLegacyDexResponse w.submitHistory =
        LegacyDexResult.raisedValueError := by
      rw [hhist]; rfl
    cases hcsrf : w.capturedCsrf <;>
      simp [authenticate, hin, hsvc, authenticationService, hlegacy, hcsrf,
        AUTHENTICATION_DEX_OLD, AUTHENTICATION_DEX_NEW]
  · intro previousResponseCookies hlast hcookie
    have hlegacy : handleLegacyDexResponse w.submitHistory = LegacyDexResult.warned := by
      unfold handleLegacyDexResponse
      simp only [hlast, hcookie]
    cases hcsrf : w.capturedCsrf <;>
      simp [authenticate, hin, hsvc, authenticationService, hlegacy, hcsrf,
        AUTHENTICATION_DEX_OLD, AUTHENTICATION_DEX_NEW]

/-- C2 witness: the amended behavior at a concrete empty redirect history and at a
concrete cookie-less one-hop history. -/
theorem c2_legacy_redirect_cookie_witness :
    ((authenticate ⟨[], [], [], false, some AUTHENTICATION_DEX_OLD⟩
        ⟨none, 0, "login", none, 200, [], none, none⟩).outcome =
      AuthOutcome.valueError
        "The cluster responded to the request, but authentication failed." ∧
      (authenticate ⟨[], [], [], false, some AUTHENTICATION_DEX_OLD⟩
          ⟨none, 0, "login", none, 200, [], none, none⟩).state.loggedIn = false) ∧
    ((authenticate ⟨[], [], [], false, some AUTHENTICATION_DEX_OLD⟩
        ⟨none, 0, "login", none, 200, [[("other", "v")]], none, none⟩).outcome =
      AuthOutcome.ok ∧
      (authenticate ⟨[], [], [], false, some AUTHENTICATION_DEX_OLD⟩
          ⟨none, 0, "login", none, 200, [[("other", "v")]], none, none⟩).state.loggedIn =
        true ∧
      (authenticate ⟨[], [], [], false, some AUTHENTICATION_DEX_OLD⟩
          ⟨none, 0, "login", none, 200, [[("other", "v")]], none, none⟩).warned = true) :=
  ⟨(c2_legacy_redirect_cookie ⟨[], [], [], false, some AUTHENTICATION_DEX_OLD⟩
      ⟨none, 0, "login", none, 200, [], none, none⟩ rfl rfl).1 rfl,
    (c2_legacy_redirect_cookie ⟨[], [], [], false, some AUTHENTICATION_DEX_OLD⟩
      ⟨none, 0, "login", none, 200, [[("other", "v")]], none, none⟩ rfl rfl).2
      [("other", "v")] rfl (by decide)⟩

end Geti
